import Mathlib

/-!
Verification development for the application-review subsystem
(`src/main.rs`): the question-catalog loader, the in-memory review
state and its index-addressed update closures, the star-rating widget
handlers, the glyph-rendering function, and the submission pipeline.

The Rust code is embedded shallowly:

* JSON payloads are modelled by the inductive `Json`; the serde-derived
  deserialization of `Review` / `QuestionsData` (all four fields of
  `Review` are required, unknown fields are allowed) is modelled by
  `parseReview` / `parseQuestionsData`, and `load_questions` maps the
  parse result to its `reviews` field, as the Rust function does.
* The `on_rate` and `oninput` closures of `ReviewPage` (which mutate
  `reviews` through `get_mut`) become `setRating` / `setAdvice`;
  the Rust `as u8` cast of an `f32` (truncation toward zero, saturating
  to `[0,255]`) becomes `ratToU8` over `ℚ`.
* The `submit_reviews` handler becomes `submitReviewsServer` (the
  `server` feature branch, parameterised by the backend outcome) and
  `submitReviewsWeb` (the web-only branch); the load effect becomes
  `loadEffect`.
* The `StarRating` component state and its `onmouseenter` /
  `onmouseleave` / `onclick` handlers become `StarState` with
  `onMouseEnter` / `onMouseLeave` / `onClick`; `render_star` is
  translated verbatim with `ℚ` in place of `f32` (all values involved
  are exactly representable, so the orderings agree).
-/

namespace AppReview

/-- A JSON value; payloads of the catalog loader are modelled as trees
of this type (text-level parsing is outside the model). -/
inductive Json where
  | null : Json
  | bool : Bool → Json
  | num : ℚ → Json
  | str : String → Json
  | arr : List Json → Json
  | obj : List (String × Json) → Json

/-- The `Review` struct of `main.rs` (`category`, `question`,
`rating: u8`, `advice`); `rating` is a `Nat` standing for a `u8`. -/
structure Review where
  category : String
  question : String
  rating : Nat
  advice : String
deriving DecidableEq, Repr

/-- The `QuestionsData` struct: the top-level catalog with its
`reviews` field. -/
structure QuestionsData where
  reviews : List Review
deriving DecidableEq, Repr

/-- Field lookup in a JSON object (serde reads fields by name; the
first binding wins, and non-objects have no fields). -/
def Json.getField (j : Json) (k : String) : Option Json :=
  match j with
  | .obj fields => (fields.find? (fun p => p.1 == k)).map (fun p => p.2)
  | _ => none

/-- serde deserialization of a required `String` field: present and a
JSON string, else an error. -/
def getStr (j : Json) (k : String) : Except String String :=
  match j.getField k with
  | some (.str s) => .ok s
  | some _ => .error ("invalid type for field " ++ k)
  | none => .error ("missing field " ++ k)

/-- serde deserialization of a required `u8` field: present and a JSON
integer in `[0,255]`, else an error. -/
def getU8 (j : Json) (k : String) : Except String Nat :=
  match j.getField k with
  | some (.num q) =>
      if q.den = 1 ∧ 0 ≤ q.num ∧ q.num ≤ 255 then .ok q.num.toNat
      else .error ("invalid value for field " ++ k)
  | some _ => .error ("invalid type for field " ++ k)
  | none => .error ("missing field " ++ k)

/-- serde-derived `Deserialize` for `Review`: an object with all four
fields present and well-typed (no `serde(default)` attributes appear in
the source, so `rating` and `advice` are required; extra fields are
ignored, serde's default). -/
def parseReview (j : Json) : Except String Review :=
  match j with
  | .obj _ =>
      match getStr j "category", getStr j "question",
            getU8 j "rating", getStr j "advice" with
      | .ok c, .ok q, .ok r, .ok a => .ok ⟨c, q, r, a⟩
      | .error e, _, _, _ => .error e
      | _, .error e, _, _ => .error e
      | _, _, .error e, _ => .error e
      | _, _, _, .error e => .error e
  | _ => .error "invalid type: expected struct Review"

/-- Deserialize each element of the `reviews` array in order. -/
def parseReviews (js : List Json) : Except String (List Review) :=
  match js with
  | [] => .ok []
  | j :: rest =>
      match parseReview j, parseReviews rest with
      | .ok r, .ok rs => .ok (r :: rs)
      | .error e, _ => .error e
      | _, .error e => .error e

/-- serde-derived `Deserialize` for `QuestionsData`: an object whose
`reviews` field is an array of `Review` objects. -/
def parseQuestionsData (j : Json) : Except String QuestionsData :=
  match j with
  | .obj _ =>
      match j.getField "reviews" with
      | some (.arr js) => (parseReviews js).map (fun rs => ⟨rs⟩)
      | some _ => .error "invalid type for field reviews"
      | none => .error "missing field reviews"
  | _ => .error "invalid type: expected struct QuestionsData"

/-- The function `load_questions` (`main.rs` lines 239-243): parse the compiled-in
payload as `QuestionsData` and return its `reviews` field. The payload
text is a parameter of the model. -/
def load_questions (payload : Json) : Except String (List Review) :=
  (parseQuestionsData payload).map QuestionsData.reviews

/-- The Rust `as u8` cast applied to an `f32` (`rating as u8` in the
`on_rate` closure): truncate toward zero, saturating to `[0,255]`. -/
def ratToU8 (v : ℚ) : Nat := (min 255 (max 0 ⌊v⌋)).toNat

/-- The `on_rate` closure of `ReviewPage` (`main.rs` lines 141-146):
`if let Some(review_mut) = current_reviews.get_mut(index)` then
`review_mut.rating = rating as u8`, else nothing. -/
def setRating (reviews : List Review) (index : Nat) (rating : ℚ) :
    List Review :=
  match reviews[index]? with
  | some review_mut => reviews.set index { review_mut with rating := ratToU8 rating }
  | none => reviews

/-- The advice `oninput` closure of `ReviewPage` (`main.rs` lines
154-159): `if let Some(review_mut) = current_reviews.get_mut(index)`
then `review_mut.advice = event.value()`, else nothing. -/
def setAdvice (reviews : List Review) (index : Nat) (value : String) :
    List Review :=
  match reviews[index]? with
  | some review_mut => reviews.set index { review_mut with advice := value }
  | none => reviews

/-- The snapshot `reviews.read().clone()` (`main.rs` line 98): the copy passed
to the submission pipeline is a clone of the whole vector. -/
def snapshot (reviews : List Review) : List Review := reviews

/-- The render gate of `ReviewPage` (`main.rs` line 134): a question
block renders content only when `!review.question.trim().is_empty()`.
Trimming whitespace from both ends leaves the empty string exactly when
every character is whitespace, so the gate is embedded as the negation
of an all-whitespace check. -/
def questionVisible (review : Review) : Bool :=
  !review.question.data.all Char.isWhitespace

/-- Outcome of the `submit_to_mongodb` call as seen by the handler. -/
inductive BackendResult where
  | ok : BackendResult
  | err : String → BackendResult
deriving DecidableEq, Repr

/-- The signals of `ReviewPage` relevant to the claims: the `reviews`
vector and the `submission_status` string. -/
structure PageState where
  reviews : List Review
  submission_status : String
deriving DecidableEq, Repr

/-- The `submit_reviews` handler under the `server` feature (`main.rs`
lines 97-106): snapshot the reviews, call the backend, and set the
status from the outcome; the Rust format strings are reproduced
verbatim (`"Error submitting reviews: {}"` wraps the error). -/
def submitReviewsServer (s : PageState)
    (backend : List Review → BackendResult) : PageState :=
  let reviews_data := snapshot s.reviews
  match backend reviews_data with
  | .ok => { s with submission_status := "Reviews submitted successfully!" }
  | .err e => { s with submission_status := "Error submitting reviews: " ++ e }

/-- The `submit_reviews` handler without the `server` feature
(`main.rs` lines 107-111): no backend call; the status is
`format!("Would submit \x7b\x7d reviews (web build)", reviews_data.len())`. -/
def submitReviewsWeb (s : PageState) : PageState :=
  let reviews_data := snapshot s.reviews
  { s with submission_status :=
      "Would submit " ++ toString reviews_data.length ++ " reviews (web build)" }

/-- The load effect of `ReviewPage` (`main.rs` lines 82-95): on `Ok`
the reviews signal is set; on `Err` the status becomes
`format!("Error loading questions: \x7b\x7d", e)`; either way `loading`
becomes `false` (returned as the second component). -/
def loadEffect (payload : Json) (s : PageState) : PageState × Bool :=
  match load_questions payload with
  | .ok loaded_reviews => ({ s with reviews := loaded_reviews }, false)
  | .error e =>
      ({ s with submission_status := "Error loading questions: " ++ e }, false)

/-- The signals of the `StarRating` component: the committed `rating`
and the transient `hover_rating`. -/
structure StarState where
  rating : ℚ
  hover_rating : ℚ
deriving DecidableEq, Repr

/-- The signal initialisation `use_signal(|| initial_rating.unwrap_or(0.0))` and
`use_signal(|| 0.0f32)` (`main.rs` lines 178-179). -/
def starInit (initial_rating : Option ℚ) : StarState :=
  { rating := initial_rating.getD 0, hover_rating := 0 }

/-- The `onmouseenter` handler (`main.rs` lines 190-192):
`hover_rating.set(star_index as f32)`. -/
def onMouseEnter (st : StarState) (star_index : Nat) : StarState :=
  { st with hover_rating := (star_index : ℚ) }

/-- The `onmouseleave` handler (`main.rs` line 193):
`hover_rating.set(0.0)`. -/
def onMouseLeave (st : StarState) : StarState :=
  { st with hover_rating := 0 }

/-- The `onclick` handler (`main.rs` lines 194-200): commit
`star_index as f32` and, when an `on_rate` handler is supplied, call it
with the new rating; the second component is the value passed to the
handler (`none` when no handler is configured). -/
def onClick {α : Type} (st : StarState) (star_index : Nat)
    (on_rate : Option (ℚ → α)) : StarState × Option α :=
  let new_rating : ℚ := (star_index : ℚ)
  ({ st with rating := new_rating }, on_rate.map (fun h => h new_rating))

/-- The function `render_star` (`main.rs` lines 214-224), translated verbatim with
`ℚ` for `f32`. -/
def render_star (star_index : ℚ) (hover : ℚ) (rating : ℚ) : String :=
  let current_rating := if hover > 0 then hover else rating
  if current_rating ≥ star_index then "★"
  else if current_rating ≥ star_index - 1/2 then "⯨"
  else "☆"

/-- The three glyphs of the specification. -/
inductive Glyph where
  | FULL : Glyph
  | HALF : Glyph
  | EMPTY : Glyph
deriving DecidableEq, Repr

/-- Modelled from the spec: `renderGlyph(starIndex, hoverRating,
currentRating)` with `effective = hoverRating if hoverRating > 0 else
currentRating`; FULL when `effective >= starIndex`, HALF when
`effective >= starIndex - 0.5`, EMPTY otherwise. Stated for comparison
with the source's `render_star`. -/
def renderGlyph (starIndex hoverRating currentRating : ℚ) : Glyph :=
  let effective := if hoverRating > 0 then hoverRating else currentRating
  if effective ≥ starIndex then .FULL
  else if effective ≥ starIndex - 1/2 then .HALF
  else .EMPTY

/-- The glyph each constructor renders as in `render_star`. -/
def glyphChar : Glyph → String
  | .FULL => "★"
  | .HALF => "⯨"
  | .EMPTY => "☆"

/-- Encoding of a `Review` as the JSON object the loader parses. -/
def encodeReview (r : Review) : Json :=
  .obj [("category", .str r.category), ("question", .str r.question),
        ("rating", .num (r.rating : ℚ)), ("advice", .str r.advice)]

/-- Encoding of a catalog as the JSON payload the loader parses. -/
def encodeCatalog (rs : List Review) : Json :=
  .obj [("reviews", .arr (rs.map encodeReview))]

/-- All ratings of a list fit in a `u8`. -/
def ratingsFit (rs : List Review) : Prop := ∀ r ∈ rs, r.rating ≤ 255

instance (rs : List Review) : Decidable (ratingsFit rs) :=
  List.decidableBAll _ rs

/-- All ratings of a list are in the documented range `[0,5]`. -/
def ratingsLe5 (rs : List Review) : Prop := ∀ r ∈ rs, r.rating ≤ 5

instance (rs : List Review) : Decidable (ratingsLe5 rs) :=
  List.decidableBAll _ rs

/-! ### Concrete fixtures -/

/-- A one-question catalog whose entry carries a nonzero rating and a
nonempty advice text. -/
def cat1 : List Review := [⟨"Skills", "Q1", 3, "keep going"⟩]

/-- A payload whose single entry has `category` and `question` strings
but omits the `rating` and `advice` fields. -/
def payloadMissingFields : Json :=
  Json.obj [("reviews", Json.arr [Json.obj
    [("category", Json.str "A"), ("question", Json.str "Q")]])]

/-- A freshly seeded one-question state (rating 0, empty advice). -/
def exState : List Review := [⟨"Skills", "Q1", 0, ""⟩]

/-- A review whose question text is whitespace only. -/
def blankReview : Review := ⟨"Culture", "   ", 0, ""⟩

/-- A page state holding one edited review and an empty status line. -/
def examplePage : PageState := ⟨[⟨"Skills", "Q1", 4, "ok"⟩], ""⟩

/-- A backend whose bulk write always fails with message
`"duplicate key"`. -/
def failingBackend : List Review → BackendResult := fun _ => .err "duplicate key"

/-! ### Helper lemmas -/

theorem getStr_encode_category (r : Review) :
    getStr (encodeReview r) "category" = .ok r.category := rfl

theorem getStr_encode_question (r : Review) :
    getStr (encodeReview r) "question" = .ok r.question := rfl

theorem getStr_encode_advice (r : Review) :
    getStr (encodeReview r) "advice" = .ok r.advice := rfl

theorem getU8_encode (r : Review) (h : r.rating ≤ 255) :
    getU8 (encodeReview r) "rating" = .ok r.rating := by
  show (if ((r.rating : ℚ)).den = 1 ∧ 0 ≤ ((r.rating : ℚ)).num ∧ ((r.rating : ℚ)).num ≤ 255
      then (Except.ok ((r.rating : ℚ)).num.toNat : Except String Nat)
      else .error ("invalid value for field " ++ "rating")) = .ok r.rating
  rw [if_pos]
  · simp
  · refine ⟨Rat.den_natCast _, ?_, ?_⟩
    · simp
    · simp only [Rat.num_natCast]
      exact_mod_cast h

theorem parseReview_encode (r : Review) (h : r.rating ≤ 255) :
    parseReview (encodeReview r) = .ok r := by
  have hc := getStr_encode_category r
  have hq := getStr_encode_question r
  have ha := getStr_encode_advice r
  have hr := getU8_encode r h
  unfold encodeReview at hc hq ha hr ⊢
  unfold parseReview
  rw [hc, hq, hr, ha]

theorem parseReviews_encode (rs : List Review) (h : ratingsFit rs) :
    parseReviews (rs.map encodeReview) = .ok rs := by
  induction rs with
  | nil => rfl
  | cons r rest ih =>
      have hr : r.rating ≤ 255 := h r (List.mem_cons_self r rest)
      have hrest : ratingsFit rest := fun x hx => h x (List.mem_cons_of_mem r hx)
      simp only [List.map_cons, parseReviews, parseReview_encode r hr, ih hrest]

theorem load_encode (rs : List Review) (h : ratingsFit rs) :
    load_questions (encodeCatalog rs) = .ok rs := by
  show ((parseReviews (rs.map encodeReview)).map (fun l => (⟨l⟩ : QuestionsData))).map
      QuestionsData.reviews = .ok rs
  rw [parseReviews_encode rs h]
  rfl

theorem getElem?_setRating (rs : List Review) (i : Nat) (v : ℚ) (n : Nat) :
    (setRating rs i v)[n]? =
      if n = i then rs[n]?.map (fun r => { r with rating := ratToU8 v })
      else rs[n]? := by
  unfold setRating
  rcases h : rs[i]? with _ | r
  · by_cases hn : n = i
    · subst hn; simp [h]
    · simp [hn]
  · by_cases hn : n = i
    · subst hn
      have hlt : n < rs.length := (List.getElem?_eq_some_iff.1 h).1
      simp [List.getElem?_set_self hlt, h]
    · simp [List.getElem?_set_ne (Ne.symm hn), hn]

theorem getElem?_setAdvice (rs : List Review) (i : Nat) (t : String) (n : Nat) :
    (setAdvice rs i t)[n]? =
      if n = i then rs[n]?.map (fun r => { r with advice := t })
      else rs[n]? := by
  unfold setAdvice
  rcases h : rs[i]? with _ | r
  · by_cases hn : n = i
    · subst hn; simp [h]
    · simp [hn]
  · by_cases hn : n = i
    · subst hn
      have hlt : n < rs.length := (List.getElem?_eq_some_iff.1 h).1
      simp [List.getElem?_set_self hlt, h]
    · simp [List.getElem?_set_ne (Ne.symm hn), hn]

theorem length_setRating (rs : List Review) (i : Nat) (v : ℚ) :
    (setRating rs i v).length = rs.length := by
  unfold setRating
  rcases rs[i]? <;> simp

theorem length_setAdvice (rs : List Review) (i : Nat) (t : String) :
    (setAdvice rs i t).length = rs.length := by
  unfold setAdvice
  rcases rs[i]? <;> simp

theorem submitServer_ok (s : PageState) (b : List Review → BackendResult)
    (h : b (snapshot s.reviews) = .ok) :
    submitReviewsServer s b =
      { s with submission_status := "Reviews submitted successfully!" } := by
  show (match b (snapshot s.reviews) with
        | .ok => { s with submission_status := "Reviews submitted successfully!" }
        | .err e => { s with submission_status := "Error submitting reviews: " ++ e })
      = _
  rw [h]

theorem submitServer_err (s : PageState) (b : List Review → BackendResult)
    (m : String) (h : b (snapshot s.reviews) = .err m) :
    submitReviewsServer s b =
      { s with submission_status := "Error submitting reviews: " ++ m } := by
  show (match b (snapshot s.reviews) with
        | .ok => { s with submission_status := "Reviews submitted successfully!" }
        | .err e => { s with submission_status := "Error submitting reviews: " ++ e })
      = _
  rw [h]

theorem ratToU8_le_five (v : ℚ) (h5 : v ≤ 5) : ratToU8 v ≤ 5 := by
  have hfl : ⌊v⌋ ≤ 5 := by
    have := Int.floor_mono h5
    simpa using this
  unfold ratToU8
  rcases le_total (255 : ℤ) (max 0 ⌊v⌋) with hm | hm
  · rw [min_eq_left hm] at *
    omega
  · rw [min_eq_right hm]
    rcases le_total (0 : ℤ) ⌊v⌋ with hz | hz
    · rw [max_eq_right hz]; omega
    · rw [max_eq_left hz]; omega


/-! ### Claims -/

/-- C1 (counterexample): loading a catalog whose entry carries
`rating = 3` and `advice = "keep going"` produces a record with those
payload values, not `rating = 0` and `advice = ""` — the payload's
rating/advice fields are not ignored at load time. -/
theorem C1_counterexample :
    load_questions (encodeCatalog cat1) = .ok cat1 ∧
    cat1.map Review.rating ≠ [0] ∧
    cat1.map Review.advice ≠ [""] :=
  ⟨rfl, by decide, by decide⟩

/-- C1 (amended): loading a catalog of length N produces exactly N
`Review` records in catalog order with all four fields — `category`,
`question`, and also `rating` and `advice` — copied verbatim from the
payload; rating/advice are deserialized, not reset to `0` / `""`. -/
theorem C1_thm (rs : List Review) (h : ratingsFit rs) :
    load_questions (encodeCatalog rs) = .ok rs :=
  load_encode rs h

/-- C1 witness: the amended load theorem evaluated on a concrete
one-entry catalog. -/
theorem C1_witness :
    ratingsFit cat1 ∧ load_questions (encodeCatalog cat1) = .ok cat1 :=
  ⟨by decide, C1_thm cat1 (by decide)⟩

/-- C2 (counterexample): `setRating 0 7` on a seeded one-question
state stores rating `7`, not the claimed `clamp(7, 0, 5) = 5`. -/
theorem C2_counterexample :
    setRating exState 0 7 = [⟨"Skills", "Q1", 7, ""⟩] ∧ (7 : Nat) ≠ 5 :=
  ⟨by decide, by decide⟩

/-- C2 (amended): for every index `i` and value `v`, the `on_rate`
update path stores `v as u8` (truncation toward zero, saturating to
`[0,255]`) on the record at `i` — no clamp to 5 is applied, so
`setRating 0 7` stores `7`. -/
theorem C2_thm (rs : List Review) (i : Nat) (v : ℚ) :
    (setRating rs i v)[i]? = rs[i]?.map (fun r => { r with rating := ratToU8 v }) := by
  rw [getElem?_setRating, if_pos rfl]

/-- C3 (counterexample): a seeded state satisfies the `[0,5]` rating
bound, but the `setRating` operation with value `7` breaks it — the
claimed invariant is not preserved by every operation. -/
theorem C3_counterexample :
    ratingsLe5 exState ∧ ¬ ratingsLe5 (setRating exState 0 7) :=
  ⟨by decide, by decide⟩

/-- C3 (amended): `setRating` and `setAdvice` never change the
`category`/`question` fields of any record; the `[0,5]` rating bound is
preserved by `setAdvice` and by `snapshot`, and by `setRating` only
when the incoming value is at most 5 (true of every widget click, which
sends a whole star in 1..5) — not for arbitrary values. -/
theorem C3_thm :
    (∀ (rs : List Review) (i : Nat) (v : ℚ),
      (setRating rs i v).map (fun r => (r.category, r.question)) =
        rs.map (fun r => (r.category, r.question))) ∧
    (∀ (rs : List Review) (i : Nat) (t : String),
      (setAdvice rs i t).map (fun r => (r.category, r.question)) =
        rs.map (fun r => (r.category, r.question))) ∧
    (∀ (rs : List Review) (i : Nat) (v : ℚ),
      ratingsLe5 rs → v ≤ 5 → ratingsLe5 (setRating rs i v)) ∧
    (∀ (rs : List Review) (i : Nat) (t : String),
      ratingsLe5 rs → ratingsLe5 (setAdvice rs i t)) ∧
    (∀ rs : List Review, ratingsLe5 rs → ratingsLe5 (snapshot rs)) := by
  refine ⟨?_, ?_, ?_, ?_, ?_⟩
  · intro rs i v
    apply List.ext_getElem?
    intro n
    rw [List.getElem?_map, List.getElem?_map, getElem?_setRating]
    by_cases hn : n = i
    · rw [if_pos hn, Option.map_map]
      rfl
    · rw [if_neg hn]
  · intro rs i t
    apply List.ext_getElem?
    intro n
    rw [List.getElem?_map, List.getElem?_map, getElem?_setAdvice]
    by_cases hn : n = i
    · rw [if_pos hn, Option.map_map]
      rfl
    · rw [if_neg hn]
  · intro rs i v h h5 r hr
    obtain ⟨n, hn⟩ := List.mem_iff_getElem?.1 hr
    rw [getElem?_setRating] at hn
    by_cases hni : n = i
    · rw [if_pos hni] at hn
      obtain ⟨r', hr', hupd⟩ := Option.map_eq_some'.1 hn
      rw [← hupd]
      exact ratToU8_le_five v h5
    · rw [if_neg hni] at hn
      exact h r (List.mem_iff_getElem?.2 ⟨n, hn⟩)
  · intro rs i t h r hr
    obtain ⟨n, hn⟩ := List.mem_iff_getElem?.1 hr
    rw [getElem?_setAdvice] at hn
    by_cases hni : n = i
    · rw [if_pos hni] at hn
      obtain ⟨r', hr', hupd⟩ := Option.map_eq_some'.1 hn
      rw [← hupd]
      exact h r' (List.mem_iff_getElem?.2 ⟨n, hr'⟩)
    · rw [if_neg hni] at hn
      exact h r (List.mem_iff_getElem?.2 ⟨n, hn⟩)
  · intro rs h
    exact h

/-- C3 witness: rating-bound preservation applied to a concrete
in-range `setRating` call on a seeded state. -/
theorem C3_witness :
    ratingsLe5 exState ∧ (4 : ℚ) ≤ 5 ∧ ratingsLe5 (setRating exState 0 4) :=
  ⟨by decide, by norm_num, C3_thm.2.2.1 exState 0 4 (by decide) (by norm_num)⟩

/-- C7: for every index at or beyond the length of the review list,
both update closures are complete no-ops: the state is returned
unchanged (no panic, no growth, no record modified). -/
theorem C7_thm (rs : List Review) (i : Nat) (v : ℚ) (t : String)
    (h : rs.length ≤ i) :
    setRating rs i v = rs ∧ setAdvice rs i t = rs := by
  constructor
  · unfold setRating
    rw [List.getElem?_eq_none h]
  · unfold setAdvice
    rw [List.getElem?_eq_none h]

/-- C4 (counterexample): a payload whose entry has `category` and
`question` strings but omits `rating`/`advice` fails to load — those
fields are required by the derived deserializer, not optional. -/
theorem C4_counterexample :
    load_questions payloadMissingFields = .error "missing field rating" :=
  rfl

/-- C4 (amended): loading succeeds for payloads whose entries carry all
four fields (category/question/advice strings, rating an integer in
`[0,255]`); a missing top-level `reviews` key or a missing entry field
is a load error, and every load error is surfaced by the load effect as
the status message `"Error loading questions: ..."` with the loading
flag cleared — never a crash. -/
theorem C4_thm :
    (∀ rs : List Review, ratingsFit rs →
      load_questions (encodeCatalog rs) = .ok rs) ∧
    load_questions (Json.obj []) = .error "missing field reviews" ∧
    (∀ (p : Json) (s : PageState) (e : String), load_questions p = .error e →
      loadEffect p s =
        ({ s with submission_status := "Error loading questions: " ++ e }, false)) ∧
    (∀ (p : Json) (s : PageState) (rs : List Review), load_questions p = .ok rs →
      loadEffect p s = ({ s with reviews := rs }, false)) := by
  refine ⟨fun rs h => load_encode rs h, rfl, ?_, ?_⟩
  · intro p s e h
    unfold loadEffect
    rw [h]
  · intro p s rs h
    unfold loadEffect
    rw [h]

/-- C4 witness: the error-surfacing branch evaluated on the concrete
payload with missing fields. -/
theorem C4_witness :
    load_questions payloadMissingFields = .error "missing field rating" ∧
    loadEffect payloadMissingFields examplePage =
      ({ examplePage with submission_status :=
          "Error loading questions: " ++ "missing field rating" }, false) :=
  ⟨rfl, C4_thm.2.2.1 payloadMissingFields examplePage "missing field rating" rfl⟩

/-- C5 (counterexample): when the backend fails with message
`"duplicate key"`, the status line becomes
`"Error submitting reviews: duplicate key"` — the backend's message is
wrapped in a fixed prefix, not surfaced verbatim. -/
theorem C5_counterexample :
    (submitReviewsServer examplePage failingBackend).submission_status =
      "Error submitting reviews: duplicate key" ∧
    "Error submitting reviews: duplicate key" ≠ "duplicate key" :=
  ⟨rfl, by decide⟩

/-- C5 (amended): when the backend write fails with message `m`, the
status line becomes `"Error submitting reviews: " ++ m` (prefix plus
the backend's message), every review record is left unchanged, and a
second submit attempt without reloading operates on the same snapshot
and succeeds whenever its backend call succeeds. -/
theorem C5_thm (s : PageState) (backend : List Review → BackendResult)
    (m : String) (h : backend (snapshot s.reviews) = .err m) :
    submitReviewsServer s backend =
      { s with submission_status := "Error submitting reviews: " ++ m } ∧
    (submitReviewsServer s backend).reviews = s.reviews ∧
    (∀ backend₂ : List Review → BackendResult,
      backend₂ (snapshot s.reviews) = .ok →
      (submitReviewsServer (submitReviewsServer s backend) backend₂).submission_status =
        "Reviews submitted successfully!") := by
  have h1 := submitServer_err s backend m h
  refine ⟨h1, by rw [h1], ?_⟩
  intro b2 h2
  have h2' : b2 (snapshot (submitReviewsServer s backend).reviews) = .ok := by
    rw [h1]
    exact h2
  rw [submitServer_ok _ _ h2']

/-- C5 witness: the failure branch evaluated on a concrete page state
against the always-failing backend. -/
theorem C5_witness :
    failingBackend (snapshot examplePage.reviews) = .err "duplicate key" ∧
    submitReviewsServer examplePage failingBackend =
      { examplePage with
          submission_status := "Error submitting reviews: " ++ "duplicate key" } :=
  ⟨rfl, (C5_thm examplePage failingBackend "duplicate key" rfl).1⟩

/-- C6 (counterexample): a whitespace-question record is gated out of
the rendered content, yet the submission snapshot still contains it —
so it is not skipped by the submission layer, and the web-mode status
counts it among the submitted reviews. -/
theorem C6_counterexample :
    questionVisible blankReview = false ∧
    snapshot [blankReview] = [blankReview] ∧
    List.filter questionVisible [blankReview] = [] ∧
    [blankReview] ≠ ([] : List Review) ∧
    (submitReviewsWeb ⟨[blankReview], ""⟩).submission_status =
      "Would submit 1 reviews (web build)" :=
  ⟨by decide, rfl, by decide, by decide, rfl⟩

/-- C6 (amended): a catalog entry with an empty-or-whitespace question
is still seeded into the state at its catalog index (the loader keeps
every entry in order), and the render gate skips exactly the records
whose trimmed question is empty; the filtering is purely
presentational — the state keeps the record and the submission snapshot
includes it verbatim, so nothing skips it at submission time. -/
theorem C6_thm :
    (∀ rs : List Review, ratingsFit rs →
      load_questions (encodeCatalog rs) = .ok rs) ∧
    (∀ r : Review, (∀ c ∈ r.question.data, c.isWhitespace = true) →
      questionVisible r = false) ∧
    (∀ r : Review, questionVisible r = false →
      ∀ c ∈ r.question.data, c.isWhitespace = true) ∧
    (∀ rs : List Review, snapshot rs = rs) := by
  refine ⟨fun rs h => load_encode rs h, ?_, ?_, fun rs => rfl⟩
  · intro r h
    unfold questionVisible
    rw [List.all_eq_true.2 h]
    rfl
  · intro r h
    unfold questionVisible at h
    have hb : r.question.data.all Char.isWhitespace = true := by
      cases hb : r.question.data.all Char.isWhitespace
      · rw [hb] at h
        exact absurd h (by decide)
      · rfl
    exact List.all_eq_true.1 hb

/-- C6 witness: the blank-question record is loaded into state and
gated out of the rendered content. -/
theorem C6_witness :
    ratingsFit [blankReview] ∧
    load_questions (encodeCatalog [blankReview]) = .ok [blankReview] ∧
    blankReview.question.data.all Char.isWhitespace = true ∧
    questionVisible blankReview = false :=
  ⟨by decide, C6_thm.1 [blankReview] (by decide), by decide,
    C6_thm.2.1 blankReview (by decide)⟩

/-- C8: `render_star` is pure and agrees with the spec's `renderGlyph`
(effective = hover if positive else committed; FULL when
`effective ≥ starIndex`, HALF when `effective ≥ starIndex - 0.5`,
EMPTY otherwise); in particular `render_star 2 3 1` is the FULL glyph
and `render_star 4 3 1` the EMPTY glyph. -/
theorem C8_thm :
    (∀ star_index hover rating : ℚ,
      render_star star_index hover rating =
        glyphChar (renderGlyph star_index hover rating)) ∧
    render_star 2 3 1 = glyphChar .FULL ∧
    render_star 4 3 1 = glyphChar .EMPTY ∧
    renderGlyph 2 3 1 = .FULL ∧
    renderGlyph 4 3 1 = .EMPTY := by
  refine ⟨?_, ?_, ?_, ?_, ?_⟩
  · intro si h r
    simp only [render_star, renderGlyph]
    split_ifs <;> rfl
  · unfold render_star glyphChar
    norm_num
  · unfold render_star glyphChar
    norm_num
  · unfold renderGlyph
    norm_num
  · unfold renderGlyph
    norm_num

/-- C9: clicking star `i` (with `1 ≤ i ≤ 5`, the only stars the widget
renders) commits exactly the whole-star rating `i`, invokes a
configured `on_rate` callback with that value (and communicates nothing
when none is configured), and `onmouseleave` resets the hover rating to
0 so hover state never persists. -/
theorem C9_thm {α : Type} (st : StarState) (i : Nat) (f : ℚ → α)
    (h1 : 1 ≤ i) (h5 : i ≤ 5) :
    (onClick st i (some f)).1.rating = (i : ℚ) ∧
    (onClick st i (some f)).2 = some (f (i : ℚ)) ∧
    (onClick st i (none : Option (ℚ → α))).1.rating = (i : ℚ) ∧
    (onClick st i (none : Option (ℚ → α))).2 = none ∧
    ((i : ℚ)).den = 1 ∧ 1 ≤ (i : ℚ) ∧ (i : ℚ) ≤ 5 ∧
    (onMouseLeave st).hover_rating = 0 := by
  refine ⟨rfl, rfl, rfl, rfl, Rat.den_natCast i, ?_, ?_, rfl⟩
  · exact_mod_cast h1
  · exact_mod_cast h5

/-- C9 witness: clicking star 3 on a fresh widget with the `as u8`
conversion as callback. -/
theorem C9_witness :
    (1 : Nat) ≤ 3 ∧ (3 : Nat) ≤ 5 ∧
    (onClick (starInit none) 3 (some ratToU8)).1.rating = ((3 : Nat) : ℚ) ∧
    (onClick (starInit none) 3 (some ratToU8)).2 = some (ratToU8 ((3 : Nat) : ℚ)) ∧
    (((3 : Nat) : ℚ)).den = 1 ∧
    (onMouseLeave (starInit none)).hover_rating = 0 := by
  have h := C9_thm (starInit none) 3 ratToU8 (by decide) (by decide)
  exact ⟨by decide, by decide, h.1, h.2.1, h.2.2.2.2.1, h.2.2.2.2.2.2.2⟩

/-- C10: without a configured backend, submit performs no backend call
and sets the descriptive status `"Would submit N reviews (web build)"`
with `N` the length of the submitted snapshot, leaving every review
record unchanged — a successful no-op, not an error. -/
theorem C10_thm (s : PageState) :
    (submitReviewsWeb s).submission_status =
      "Would submit " ++ toString (snapshot s.reviews).length ++
        " reviews (web build)" ∧
    (submitReviewsWeb s).reviews = s.reviews :=
  ⟨rfl, rfl⟩

/-- C7 witness: the out-of-bounds no-op evaluated at index 5 of a
one-element state. -/
theorem C7_witness :
    exState.length ≤ 5 ∧ setRating exState 5 7 = exState ∧
      setAdvice exState 5 "x" = exState := by
  have h := C7_thm exState 5 7 "x" (by decide)
  exact ⟨by decide, h.1, h.2⟩

end AppReview
